import Mathlib

/-!
The yagl logger: leveled, multi-destination logging.

A shallow embedding of `src/logger.go` (constants, `Logger` interface),
`src/log.go` (`New`, `Level`, `buildHeader`, `output`, the fourteen severity
methods) and `src/std.go` (the standard logger and the package functions)
into Lean, followed by theorems about it.

Conventions of the embedding.

* Go `int` is `Int`; the bitwise operators are taken on the 64-bit two's
  complement representation (`and64`, `or64`).  Comparisons of levels never
  overflow and are plain `Int` comparisons.
* Go `string` / `[]byte` is `String`.  The code compares single bytes with
  the ASCII bytes `'\n'` and `'/'` only; in UTF-8 these bytes never occur
  inside a multi-byte sequence, so indexing by character agrees with indexing
  by byte on those tests.
* The host runtime (`time.Now`, `runtime.Caller`, `os.Getpid`, `fmt.Sprint`,
  `fmt.Sprintf` on caller supplied arguments) is a parameter `Host`.
* An `io.Writer` is a named destination; the effect of `Write` is recorded in
  a trace of calls, in the order they were issued.
* `panic(v)` and `os.Exit(c)` are results (`Result.panic`, `Result.exit`).
* The embedding is sequential: `l.mu` is free on entry to `output` and free
  again on exit, so `Lock`/`Unlock` do not change the sequential state.
-/

namespace Yagl

/-! ## Machine integers -/

/-- Number of bit patterns of a Go `int` on a 64-bit target. -/
def two64 : Nat := 2 ^ 64

/-- Unsigned 64-bit pattern of a Go `int`. -/
def bits64 (a : Int) : Nat := (a % (two64 : Int)).toNat

/-- Signed value of a 64-bit pattern. -/
def ofBits64 (r : Nat) : Int := if r < 2 ^ 63 then (r : Int) else (r : Int) - (two64 : Int)

/-- Go `a & b` on `int`. -/
def and64 (a b : Int) : Int := ofBits64 (bits64 a &&& bits64 b)

/-- Go `a | b` on `int`. -/
def or64 (a b : Int) : Int := ofBits64 (bits64 a ||| bits64 b)

/-- Go `a &^ b` on `int` (bit clear): `a & (^b)`, where `^b` flips all 64 bits. -/
def andNot64 (a b : Int) : Int := ofBits64 (bits64 a &&& (two64 - 1 - bits64 b))

/-! ## `logger.go`: constants -/

/-- Flag `1 << 0`: the date. -/
def FlgDate : Int := 1
/-- Flag `1 << 1`: the time. -/
def FlgTime : Int := 2
/-- Flag `1 << 2`: microsecond resolution. -/
def FlgMicroseconds : Int := 4
/-- Flag `1 << 3`: full file name and line number. -/
def FlgLongFile : Int := 8
/-- Flag `1 << 4`: final file name element and line number. -/
def FlgShortFile : Int := 16
/-- Flag `1 << 5`: process id. -/
def FlgPID : Int := 32
/-- Flag `1 << 6`: use UTC. -/
def FlgUTC : Int := 64
/-- Preset `FlgDate | FlgTime`. -/
def FlgStdFlags : Int := or64 FlgDate FlgTime

/-- The seven flag constants, in declaration order. -/
def flagBits : List Int :=
  [FlgDate, FlgTime, FlgMicroseconds, FlgLongFile, FlgShortFile, FlgPID, FlgUTC]

/-- Level `10 * 0`. -/
def LvlTrace : Int := 10 * 0
/-- Level `10 * 1`. -/
def LvlDebug : Int := 10 * 1
/-- Level `10 * 2`. -/
def LvlInfo : Int := 10 * 2
/-- Level `10 * 3`. -/
def LvlWarn : Int := 10 * 3
/-- Level `10 * 4`. -/
def LvlError : Int := 10 * 4
/-- Level `10 * 5`. -/
def LvlPanic : Int := 10 * 5
/-- Level `10 * 6`. -/
def LvlFatal : Int := 10 * 6

/-! ## Host runtime -/

/-- Calendar and clock fields of a `time.Time` as its accessors return them. -/
structure Fields where
  year : Int
  month : Int
  day : Int
  hour : Int
  min : Int
  sec : Int
  nsec : Int
deriving DecidableEq, Repr

/-- A `time.Time`: one instant, read in its own location and in UTC. -/
structure Time where
  loc : Fields
  utc : Fields
deriving DecidableEq, Repr

/-- Go `t.UTC()`: the same instant with location set to UTC. -/
def Time.UTC (t : Time) : Time := { loc := t.utc, utc := t.utc }

/-- Go `t.Date()`. -/
def Time.Date (t : Time) : Int × Int × Int := (t.loc.year, t.loc.month, t.loc.day)

/-- Go `t.Clock()`. -/
def Time.Clock (t : Time) : Int × Int × Int := (t.loc.hour, t.loc.min, t.loc.sec)

/-- Go `t.Nanosecond()`. -/
def Time.Nanosecond (t : Time) : Int := t.loc.nsec

/-- Result `(file, line, ok)` of `runtime.Caller(3)`. -/
structure Frame where
  file : String
  line : Int
  ok : Bool
deriving DecidableEq, Repr

/-- What one call of a severity method reads from the host: the rendering of
its arguments, the clock, the caller frame and the process id. -/
structure Host (α : Type) where
  Sprint : List α → String
  Sprintf : String → List α → String
  Now : Time
  Caller : Frame
  Getpid : Int

/-! ## `fmt` verbs used by the header -/

/-- Run of `k` zero digits. -/
def zeros (k : Nat) : String := String.mk (List.replicate k '0')

/-- Verb `%d` on an `int`. -/
def verbD (n : Int) : String :=
  if n < 0 then "-" ++ Nat.repr n.natAbs else Nat.repr n.natAbs

/-- Verb `%0wd` on an `int`: zero padding to width `w`, the sign counted in
the width. -/
def verb0D (w : Nat) (n : Int) : String :=
  let ds := Nat.repr n.natAbs
  if n < 0 then "-" ++ (zeros ((w - 1) - ds.length) ++ ds)
  else zeros (w - ds.length) ++ ds

/-! ## Sinks -/

/-- One `Write` call: the destination it was issued on and the bytes handed
over. -/
abbrev WriteCall := Nat × String

/-- All `Write` calls issued so far, oldest first. -/
abbrev Writes := List WriteCall

/-- An `io.Writer`: a destination `name` and the result `(n, err)` its `Write`
returns for a given byte slice (`err = none` is Go `nil`). -/
structure Writer where
  name : Nat
  result : String → Int × Option String

/-- Go `dst.Write(p)`: the call reaches the destination and returns the
destination's result. -/
def Writer.Write (dst : Writer) (p : String) (tr : Writes) : Writes × (Int × Option String) :=
  (tr ++ [(dst.name, p)], dst.result p)

/-- How a call ends: normal return, `panic(v)`, or `os.Exit(code)`. -/
inductive Result (α : Type) where
  | ret (a : α)
  | panic (v : String)
  | exit (code : Int)
deriving DecidableEq, Repr

/-! ## `log.go` -/

/-- The `Log` struct (fields `flag`, `level`, `out`). -/
structure Log where
  flag : Int
  level : Int
  out : List Writer

/-- Go `New(flag, level, out...)`. -/
def New (flag : Int) (level : Int) (out : List Writer) (tr : Writes) : Writes × Result Log :=
  if and64 flag FlgLongFile ≠ 0 ∧ and64 flag FlgShortFile ≠ 0 then
    (tr, Result.panic "yagl: FlgLongFile and FlgShortFile flag can not be both set")
  else
    (tr, Result.ret { flag := flag, level := level, out := out })

/-- Go `(l *Log) Level()`. -/
def Log.Level (l : Log) : Int := l.level

/-- The loop `for i := len(file) - 1; i > 0; i--` of `buildHeader`, entered
with loop variable `i`; returns the final value of `short`. -/
def shortLoop (file : String) : Nat → String
  | 0 => file
  | i + 1 =>
    if file.data.get? (i + 1) = some '/' then String.mk (file.data.drop (i + 2))
    else shortLoop file i

/-- Go `(l *Log) buildHeader(builder, level, now)`; returns the buffer. -/
def Log.buildHeader {α : Type} (l : Log) (rt : Host α) (builder : String) (level : String)
    (now : Time) : String :=
  let builder := builder ++ ("[" ++ level ++ "] ")
  if and64 l.flag (or64 FlgDate FlgTime) ≠ 0 then
    let now := if and64 l.flag FlgUTC ≠ 0 then now.UTC else now
    let builder :=
      if and64 l.flag FlgDate ≠ 0 then
        let (year, month, day) := now.Date
        builder ++ (verb0D 4 year ++ "-" ++ verb0D 2 month ++ "-" ++ verb0D 2 day ++ " ")
      else builder
    let builder :=
      if and64 l.flag FlgTime ≠ 0 then
        let (hour, min, sec) := now.Clock
        if and64 l.flag FlgMicroseconds ≠ 0 then
          builder ++ (verb0D 2 hour ++ ":" ++ verb0D 2 min ++ ":" ++ verb0D 2 sec ++ "."
            ++ verb0D 2 (Int.tdiv now.Nanosecond 1000) ++ " ")
        else
          builder ++ (verb0D 2 hour ++ ":" ++ verb0D 2 min ++ ":" ++ verb0D 2 sec ++ " ")
      else builder
    let builder :=
      if and64 l.flag (or64 FlgShortFile FlgLongFile) ≠ 0 then
        let file := if !rt.Caller.ok then "???" else rt.Caller.file
        let line := if !rt.Caller.ok then 0 else rt.Caller.line
        let file :=
          if and64 l.flag FlgShortFile ≠ 0 then shortLoop file (file.length - 1)
          else file
        builder ++ (file ++ ":" ++ verbD line ++ " ")
      else builder
    let builder :=
      if and64 l.flag FlgPID ≠ 0 then builder ++ ("PID" ++ verbD rt.Getpid ++ " ")
      else builder
    builder
  else builder

/-- The byte sequence `res` that `output` builds (`log.go` lines 88 to 100):
header, message, and a newline unless the message already ends in one. -/
def Log.record {α : Type} (l : Log) (rt : Host α) (level : String) (msg : String) : String :=
  let now := rt.Now
  let builder := ""
  let builder := l.buildHeader rt builder level now
  let builder := builder ++ msg
  let msgLen := msg.length
  let builder :=
    if msgLen = 0 ∨ msg.data.get? (msgLen - 1) ≠ some '\n' then builder.push '\n'
    else builder
  builder

/-- The loop `for _, dst := range l.out { dst.Write(res) }`; the result of
each `Write` is dropped. -/
def writeAll (res : String) : List Writer → Writes → Writes
  | [], tr => tr
  | dst :: rest, tr => writeAll res rest (dst.Write res tr).1

/-- Go `(l *Log) output(level, msg)`. -/
def Log.output {α : Type} (l : Log) (rt : Host α) (level : String) (msg : String)
    (tr : Writes) : Log × Writes :=
  let res := l.record rt level msg
  (l, writeAll res l.out tr)

/-- Go `(l *Log) Trace(v...)`. -/
def Log.Trace {α : Type} (l : Log) (rt : Host α) (v : List α) (tr : Writes) :
    (Log × Writes) × Result Unit :=
  if LvlTrace ≥ l.level then (l.output rt "TRACE" (rt.Sprint v) tr, Result.ret ())
  else ((l, tr), Result.ret ())

/-- Go `(l *Log) Debug(v...)`. -/
def Log.Debug {α : Type} (l : Log) (rt : Host α) (v : List α) (tr : Writes) :
    (Log × Writes) × Result Unit :=
  if LvlDebug ≥ l.level then (l.output rt "DEBUG" (rt.Sprint v) tr, Result.ret ())
  else ((l, tr), Result.ret ())

/-- Go `(l *Log) Info(v...)`. -/
def Log.Info {α : Type} (l : Log) (rt : Host α) (v : List α) (tr : Writes) :
    (Log × Writes) × Result Unit :=
  if LvlInfo ≥ l.level then (l.output rt "INFO" (rt.Sprint v) tr, Result.ret ())
  else ((l, tr), Result.ret ())

/-- Go `(l *Log) Warn(v...)`. -/
def Log.Warn {α : Type} (l : Log) (rt : Host α) (v : List α) (tr : Writes) :
    (Log × Writes) × Result Unit :=
  if LvlWarn ≥ l.level then (l.output rt "WARN" (rt.Sprint v) tr, Result.ret ())
  else ((l, tr), Result.ret ())

/-- Go `(l *Log) Error(v...)`. -/
def Log.Error {α : Type} (l : Log) (rt : Host α) (v : List α) (tr : Writes) :
    (Log × Writes) × Result Unit :=
  if LvlError ≥ l.level then (l.output rt "ERROR" (rt.Sprint v) tr, Result.ret ())
  else ((l, tr), Result.ret ())

/-- Go `(l *Log) Panic(v...)`. -/
def Log.Panic {α : Type} (l : Log) (rt : Host α) (v : List α) (tr : Writes) :
    (Log × Writes) × Result Unit :=
  let msg := rt.Sprint v
  let st := if LvlPanic ≥ l.level then l.output rt "PANIC" msg tr else (l, tr)
  (st, Result.panic msg)

/-- Go `(l *Log) Fatal(v...)`. -/
def Log.Fatal {α : Type} (l : Log) (rt : Host α) (v : List α) (tr : Writes) :
    (Log × Writes) × Result Unit :=
  let st := if LvlFatal ≥ l.level then l.output rt "FATAL" (rt.Sprint v) tr else (l, tr)
  (st, Result.exit 1)

/-- Go `(l *Log) Tracef(format, v...)`. -/
def Log.Tracef {α : Type} (l : Log) (rt : Host α) (format : String) (v : List α)
    (tr : Writes) : (Log × Writes) × Result Unit :=
  if LvlTrace ≥ l.level then (l.output rt "TRACE" (rt.Sprintf format v) tr, Result.ret ())
  else ((l, tr), Result.ret ())

/-- Go `(l *Log) Debugf(format, v...)`. -/
def Log.Debugf {α : Type} (l : Log) (rt : Host α) (format : String) (v : List α)
    (tr : Writes) : (Log × Writes) × Result Unit :=
  if LvlDebug ≥ l.level then (l.output rt "DEBUG" (rt.Sprintf format v) tr, Result.ret ())
  else ((l, tr), Result.ret ())

/-- Go `(l *Log) Infof(format, v...)`. -/
def Log.Infof {α : Type} (l : Log) (rt : Host α) (format : String) (v : List α)
    (tr : Writes) : (Log × Writes) × Result Unit :=
  if LvlInfo ≥ l.level then (l.output rt "INFO" (rt.Sprintf format v) tr, Result.ret ())
  else ((l, tr), Result.ret ())

/-- Go `(l *Log) Warnf(format, v...)`. -/
def Log.Warnf {α : Type} (l : Log) (rt : Host α) (format : String) (v : List α)
    (tr : Writes) : (Log × Writes) × Result Unit :=
  if LvlWarn ≥ l.level then (l.output rt "WARN" (rt.Sprintf format v) tr, Result.ret ())
  else ((l, tr), Result.ret ())

/-- Go `(l *Log) Errorf(format, v...)`. -/
def Log.Errorf {α : Type} (l : Log) (rt : Host α) (format : String) (v : List α)
    (tr : Writes) : (Log × Writes) × Result Unit :=
  if LvlError ≥ l.level then (l.output rt "ERROR" (rt.Sprintf format v) tr, Result.ret ())
  else ((l, tr), Result.ret ())

/-- Go `(l *Log) Panicf(format, v...)`. -/
def Log.Panicf {α : Type} (l : Log) (rt : Host α) (format : String) (v : List α)
    (tr : Writes) : (Log × Writes) × Result Unit :=
  let msg := rt.Sprintf format v
  let st := if LvlPanic ≥ l.level then l.output rt "PANIC" msg tr else (l, tr)
  (st, Result.panic msg)

/-- Go `(l *Log) Fatalf(format, v...)`. -/
def Log.Fatalf {α : Type} (l : Log) (rt : Host α) (format : String) (v : List α)
    (tr : Writes) : (Log × Writes) × Result Unit :=
  let st :=
    if LvlFatal ≥ l.level then l.output rt "FATAL" (rt.Sprintf format v) tr else (l, tr)
  (st, Result.exit 1)

/-! ## The `Logger` interface -/

/-- The fourteen methods of the `Logger` interface. -/
inductive Method where
  | Trace | Debug | Info | Warn | Error | Panic | Fatal
  | Tracef | Debugf | Infof | Warnf | Errorf | Panicf | Fatalf
deriving DecidableEq, Repr

/-- A call `l.M(v...)` or `l.M(format, v...)` through the interface; the plain
methods take no `format`. -/
def Method.call {α : Type} (m : Method) (l : Log) (rt : Host α) (format : String)
    (v : List α) (tr : Writes) : (Log × Writes) × Result Unit :=
  match m with
  | Method.Trace => l.Trace rt v tr
  | Method.Debug => l.Debug rt v tr
  | Method.Info => l.Info rt v tr
  | Method.Warn => l.Warn rt v tr
  | Method.Error => l.Error rt v tr
  | Method.Panic => l.Panic rt v tr
  | Method.Fatal => l.Fatal rt v tr
  | Method.Tracef => l.Tracef rt format v tr
  | Method.Debugf => l.Debugf rt format v tr
  | Method.Infof => l.Infof rt format v tr
  | Method.Warnf => l.Warnf rt format v tr
  | Method.Errorf => l.Errorf rt format v tr
  | Method.Panicf => l.Panicf rt format v tr
  | Method.Fatalf => l.Fatalf rt format v tr

/-- The severity a method logs at: the level constant its gate compares. -/
def Method.severity : Method → Int
  | Method.Trace | Method.Tracef => LvlTrace
  | Method.Debug | Method.Debugf => LvlDebug
  | Method.Info | Method.Infof => LvlInfo
  | Method.Warn | Method.Warnf => LvlWarn
  | Method.Error | Method.Errorf => LvlError
  | Method.Panic | Method.Panicf => LvlPanic
  | Method.Fatal | Method.Fatalf => LvlFatal

/-- The level tag a method passes to `output`. -/
def Method.tag : Method → String
  | Method.Trace | Method.Tracef => "TRACE"
  | Method.Debug | Method.Debugf => "DEBUG"
  | Method.Info | Method.Infof => "INFO"
  | Method.Warn | Method.Warnf => "WARN"
  | Method.Error | Method.Errorf => "ERROR"
  | Method.Panic | Method.Panicf => "PANIC"
  | Method.Fatal | Method.Fatalf => "FATAL"

/-- The message a method renders from its arguments: `fmt.Sprint(v...)` for
the plain methods, `fmt.Sprintf(format, v...)` for the formatted ones. -/
def Method.msg {α : Type} (m : Method) (rt : Host α) (format : String) (v : List α) : String :=
  match m with
  | Method.Trace | Method.Debug | Method.Info | Method.Warn | Method.Error
  | Method.Panic | Method.Fatal => rt.Sprint v
  | _ => rt.Sprintf format v

/-- How a method ends after the gate and the write. -/
def Method.ending (m : Method) (msg : String) : Result Unit :=
  match m with
  | Method.Panic | Method.Panicf => Result.panic msg
  | Method.Fatal | Method.Fatalf => Result.exit 1
  | _ => Result.ret ()



/-! ## Header tokens

The four optional fields of the header, each as the text one `Sprintf` call
of `buildHeader` renders. -/

/-- The date token, `log.go` line 51: `"%04d-%02d-%02d "`. -/
def dateToken (t : Time) : String :=
  verb0D 4 t.Date.1 ++ "-" ++ verb0D 2 t.Date.2.1 ++ "-" ++ verb0D 2 t.Date.2.2 ++ " "

/-- The time token, `log.go` lines 55 to 59: `"%02d:%02d:%02d.%02d "` under
`FlgMicroseconds`, `"%02d:%02d:%02d "` otherwise. -/
def timeToken (flag : Int) (t : Time) : String :=
  if and64 flag FlgMicroseconds ≠ 0 then
    verb0D 2 t.Clock.1 ++ ":" ++ verb0D 2 t.Clock.2.1 ++ ":" ++ verb0D 2 t.Clock.2.2 ++ "."
      ++ verb0D 2 (Int.tdiv t.Nanosecond 1000) ++ " "
  else
    verb0D 2 t.Clock.1 ++ ":" ++ verb0D 2 t.Clock.2.1 ++ ":" ++ verb0D 2 t.Clock.2.2 ++ " "

/-- The file name of the caller token, `log.go` lines 64 to 77. -/
def callerFile (flag : Int) (fr : Frame) : String :=
  let file := if !fr.ok then "???" else fr.file
  if and64 flag FlgShortFile ≠ 0 then shortLoop file (file.length - 1) else file

/-- The caller token, `log.go` line 79: `"%s:%d "`. -/
def callerToken (flag : Int) (fr : Frame) : String :=
  callerFile flag fr ++ ":" ++ verbD (if !fr.ok then 0 else fr.line) ++ " "

/-- The process id token, `log.go` line 82: `"PID%d "`. -/
def pidToken (pid : Int) : String := "PID" ++ verbD pid ++ " "

/-- The newline `output` appends to message `msg`: one `'\n'` when the
message is empty or does not end in `'\n'`, nothing otherwise. -/
def terminator (msg : String) : String :=
  if msg.data.getLast? = some '\n' then "" else "\n"

/-! ## Concrete inputs used in the examples -/

/-- The instant 1970-01-01 00:00:00 UTC, read in UTC. -/
def epoch : Time :=
  { loc := ⟨1970, 1, 1, 0, 0, 0, 0⟩, utc := ⟨1970, 1, 1, 0, 0, 0, 0⟩ }

/-- A host whose arguments are strings: `fmt.Sprint` of string operands is
their concatenation, `fmt.Sprintf` of a verb-free template with no operands
is the template. -/
def demoHost : Host String :=
  { Sprint := String.join
    Sprintf := fun format _ => format
    Now := epoch
    Caller := { file := "/path/to/src/file.go", line := 23, ok := true }
    Getpid := 1234 }

/-- A destination whose `Write` succeeds. -/
def sinkA : Writer := { name := 0, result := fun p => (p.length, none) }

/-- A destination whose `Write` always returns an error. -/
def sinkB : Writer := { name := 1, result := fun _ => (0, some "write failed") }

/-- The logger `New(FlgDate|FlgTime|FlgPID, LvlWarn, sinkA, sinkB)` returns. -/
def warnLogger : Log :=
  { flag := or64 (or64 FlgDate FlgTime) FlgPID, level := LvlWarn, out := [sinkA, sinkB] }

/-- A logger whose level lies above every named level. -/
def muteLogger : Log :=
  { flag := FlgStdFlags, level := LvlFatal + 1, out := [sinkA, sinkB] }

/-- The logger `New(FlgStdFlags, LvlInfo, sinkA)` returns. -/
def stdLikeLogger : Log := { flag := FlgStdFlags, level := LvlInfo, out := [sinkA] }

/-- A logger whose first destination fails and whose second succeeds. -/
def flakyLogger : Log := { flag := FlgStdFlags, level := LvlInfo, out := [sinkB, sinkA] }

/-- A logger with every flag but `FlgDate`, `FlgTime` and `FlgShortFile`. -/
def undatedLogger : Log :=
  { flag := or64 (or64 FlgMicroseconds FlgLongFile) (or64 FlgPID FlgUTC)
    level := LvlInfo
    out := [sinkA] }

/-- A logger with `FlgPID` alone. -/
def pidOnlyLogger : Log := { flag := FlgPID, level := LvlInfo, out := [sinkA] }

/-- A logger with `FlgShortFile` alone. -/
def fileOnlyLogger : Log := { flag := FlgShortFile, level := LvlInfo, out := [sinkA] }

/-- A logger with `FlgTime | FlgMicroseconds`. -/
def microLogger : Log :=
  { flag := or64 FlgTime FlgMicroseconds, level := LvlInfo, out := [sinkA] }

/-- The instant 1970-01-01 00:00:00.000005 UTC: five microseconds. -/
def fiveMicros : Time :=
  { loc := ⟨1970, 1, 1, 0, 0, 0, 5000⟩, utc := ⟨1970, 1, 1, 0, 0, 0, 5000⟩ }

/-! ## `std.go` -/

/-- The destination `os.Stdout` (file descriptor 1). -/
def Stdout : Writer := { name := 1, result := fun p => (p.length, none) }

/-- The destination `os.Stderr` (file descriptor 2). -/
def Stderr : Writer := { name := 2, result := fun p => (p.length, none) }

/-- The logger a call of `New` returned; the zero `Log` when it panicked. -/
def Result.logger : Result Log → Log
  | Result.ret l => l
  | Result.panic _ => { flag := 0, level := 0, out := [] }
  | Result.exit _ => { flag := 0, level := 0, out := [] }

/-- Package variable `var std = New(FlgStdFlags, LvlInfo, os.Stderr)`. -/
def std : Log := (New FlgStdFlags LvlInfo [Stderr] []).2.logger

/-- Go `StdLogger()`. -/
def StdLogger : Log := std

/-- Package function `Trace(v...)`: `std.Trace(v...)`. -/
def Trace {α : Type} (rt : Host α) (v : List α) (tr : Writes) : (Log × Writes) × Result Unit :=
  std.Trace rt v tr

/-- Package function `Debug(v...)`: `std.Debug(v...)`. -/
def Debug {α : Type} (rt : Host α) (v : List α) (tr : Writes) : (Log × Writes) × Result Unit :=
  std.Debug rt v tr

/-- Package function `Info(v...)`: `std.Info(v...)`. -/
def Info {α : Type} (rt : Host α) (v : List α) (tr : Writes) : (Log × Writes) × Result Unit :=
  std.Info rt v tr

/-- Package function `Warn(v...)`: `std.Warn(v...)`. -/
def Warn {α : Type} (rt : Host α) (v : List α) (tr : Writes) : (Log × Writes) × Result Unit :=
  std.Warn rt v tr

/-- Package function `Error(v...)`: `std.Error(v...)`. -/
def Error {α : Type} (rt : Host α) (v : List α) (tr : Writes) : (Log × Writes) × Result Unit :=
  std.Error rt v tr

/-- Package function `Panic(v...)`: `std.Panic(v...)`. -/
def Panic {α : Type} (rt : Host α) (v : List α) (tr : Writes) : (Log × Writes) × Result Unit :=
  std.Panic rt v tr

/-- Package function `Fatal(v...)`: `std.Fatal(v...)`. -/
def Fatal {α : Type} (rt : Host α) (v : List α) (tr : Writes) : (Log × Writes) × Result Unit :=
  std.Fatal rt v tr

/-- Package function `Tracef(format, v...)`: `std.Tracef(format, v...)`. -/
def Tracef {α : Type} (rt : Host α) (format : String) (v : List α) (tr : Writes) :
    (Log × Writes) × Result Unit :=
  std.Tracef rt format v tr

/-- Package function `Debugf(format, v...)`: `std.Debugf(format, v...)`. -/
def Debugf {α : Type} (rt : Host α) (format : String) (v : List α) (tr : Writes) :
    (Log × Writes) × Result Unit :=
  std.Debugf rt format v tr

/-- Package function `Infof(format, v...)`: `std.Infof(format, v...)`. -/
def Infof {α : Type} (rt : Host α) (format : String) (v : List α) (tr : Writes) :
    (Log × Writes) × Result Unit :=
  std.Infof rt format v tr

/-- Package function `Warnf(format, v...)`: `std.Warnf(format, v...)`. -/
def Warnf {α : Type} (rt : Host α) (format : String) (v : List α) (tr : Writes) :
    (Log × Writes) × Result Unit :=
  std.Warnf rt format v tr

/-- Package function `Errorf(format, v...)`: `std.Errorf(format, v...)`. -/
def Errorf {α : Type} (rt : Host α) (format : String) (v : List α) (tr : Writes) :
    (Log × Writes) × Result Unit :=
  std.Errorf rt format v tr

/-- Package function `Panicf(format, v...)`: `std.Panicf(format, v...)`. -/
def Panicf {α : Type} (rt : Host α) (format : String) (v : List α) (tr : Writes) :
    (Log × Writes) × Result Unit :=
  std.Panicf rt format v tr

/-- Package function `Fatalf(format, v...)`: `std.Fatalf(format, v...)`. -/
def Fatalf {α : Type} (rt : Host α) (format : String) (v : List α) (tr : Writes) :
    (Log × Writes) × Result Unit :=
  std.Fatalf rt format v tr

/-! ## Further concrete inputs -/

/-- A host whose caller frame is a file in the root directory. -/
def rootFileHost : Host String :=
  { Sprint := String.join
    Sprintf := fun format _ => format
    Now := epoch
    Caller := { file := "/d.go", line := 23, ok := true }
    Getpid := 1234 }

/-- A logger with `FlgDate | FlgShortFile`. -/
def shortFileLogger : Log :=
  { flag := or64 FlgDate FlgShortFile, level := LvlInfo, out := [sinkA] }

/-- The `w`-digit decimal numeral of `n`, most significant digit first, as
the specification writes a zero-padded field (`YYYY`, `MM`, `DD`, `HH`, `SS`):
digit `i` from the right is `n / 10 ^ i % 10`. -/
def decimal (w n : Nat) : String :=
  String.mk ((List.range w).reverse.map (fun i => Nat.digitChar (n / 10 ^ i % 10)))

/-- A host whose caller frame could not be resolved: `runtime.Caller` returned
`ok = false` with zero values. -/
def lostHost : Host String :=
  { Sprint := String.join
    Sprintf := fun format _ => format
    Now := epoch
    Caller := { file := "", line := 0, ok := false }
    Getpid := 1234 }

/-- A logger with `FlgDate | FlgLongFile`. -/
def longFileLogger : Log :=
  { flag := or64 FlgDate FlgLongFile, level := LvlInfo, out := [sinkA] }

/-- The instant 2009-01-23 01:23:23 UTC. -/
def sampleTime : Time :=
  { loc := ⟨2009, 1, 23, 1, 23, 23, 0⟩, utc := ⟨2009, 1, 23, 1, 23, 23, 0⟩ }

/-! ## Lemmas on machine integers -/

theorem bits64_lt (a : Int) : bits64 a < two64 := by
  unfold bits64
  have hpos : (0 : Int) < (two64 : Int) := by unfold two64; norm_num
  have h0 : 0 ≤ a % (two64 : Int) := Int.emod_nonneg a (ne_of_gt hpos)
  have h1 : a % (two64 : Int) < (two64 : Int) := Int.emod_lt_of_pos a hpos
  exact (Int.toNat_lt h0).mpr h1

theorem ofBits64_eq_zero {r : Nat} (hr : r < two64) : ofBits64 r = 0 ↔ r = 0 := by
  unfold ofBits64
  unfold two64 at *
  split
  · omega
  · constructor
    · intro h; omega
    · intro h; omega

theorem bits64_ofBits64 {r : Nat} (hr : r < two64) : bits64 (ofBits64 r) = r := by
  unfold ofBits64 bits64
  unfold two64 at *
  split
  · omega
  · omega

theorem and64_ne_zero (a b : Int) : and64 a b ≠ 0 ↔ bits64 a &&& bits64 b ≠ 0 := by
  unfold and64
  have h : bits64 a &&& bits64 b < two64 :=
    lt_of_le_of_lt Nat.and_le_left (bits64_lt a)
  rw [Ne, ofBits64_eq_zero h]

theorem lor_eq_zero (a b : Nat) : a ||| b = 0 ↔ a = 0 ∧ b = 0 := by
  constructor
  · intro h
    have hbit : ∀ i, (a.testBit i || b.testBit i) = false := by
      intro i
      rw [← Nat.testBit_or, h, Nat.zero_testBit]
    constructor
    · apply Nat.eq_of_testBit_eq
      intro i
      have := hbit i
      rw [Nat.zero_testBit]
      cases ha : a.testBit i <;> simp_all
    · apply Nat.eq_of_testBit_eq
      intro i
      have := hbit i
      rw [Nat.zero_testBit]
      cases hb : b.testBit i <;> simp_all
  · rintro ⟨rfl, rfl⟩; rfl

/-- The test `f & (a|b) != 0` holds exactly when `f & a != 0` or `f & b != 0`. -/
theorem and64_or64_ne_zero (f a b : Int) :
    and64 f (or64 a b) ≠ 0 ↔ (and64 f a ≠ 0 ∨ and64 f b ≠ 0) := by
  have hab : bits64 a ||| bits64 b < two64 := by
    unfold two64; exact Nat.or_lt_two_pow (bits64_lt a) (bits64_lt b)
  rw [and64_ne_zero, and64_ne_zero, and64_ne_zero]
  unfold or64
  rw [bits64_ofBits64 hab, Nat.and_or_distrib_left, Ne, lor_eq_zero]
  tauto


/-! ## Lemmas on the write loop and the record -/

theorem writeAll_eq (res : String) (out : List Writer) (tr : Writes) :
    writeAll res out tr = tr ++ out.map (fun dst => (dst.name, res)) := by
  induction out generalizing tr with
  | nil => simp [writeAll]
  | cons dst rest ih => simp [writeAll, Writer.Write, ih]

theorem lastIndex_eq_getLast (s : String) :
    s.data.get? (s.length - 1) = s.data.getLast? := by
  rw [List.getLast?_eq_getElem?, List.get?_eq_getElem?]
  rfl

theorem length_eq_zero_getLast (s : String) (h : s.length = 0) :
    s.data.getLast? ≠ some '\n' := by
  have : s.data = [] := List.length_eq_zero.mp h
  simp [this]

/-- The record is header, message and terminator. -/
theorem record_eq {α : Type} (l : Log) (rt : Host α) (level msg : String) :
    l.record rt level msg = l.buildHeader rt "" level rt.Now ++ msg ++ terminator msg := by
  unfold Log.record terminator
  simp only [lastIndex_eq_getLast]
  by_cases h : msg.data.getLast? = some '\n'
  · have h0 : msg.length ≠ 0 := fun h0 => length_eq_zero_getLast msg h0 h
    simp [h, h0]
  · apply String.ext
    simp [h, String.data_push, String.data_append]

/-- Flat form of `buildHeader`. -/
theorem buildHeader_eq {α : Type} (l : Log) (rt : Host α) (builder level : String)
    (now : Time) :
    l.buildHeader rt builder level now =
      builder ++ "[" ++ level ++ "] " ++
        (if and64 l.flag (or64 FlgDate FlgTime) ≠ 0 then
          (if and64 l.flag FlgDate ≠ 0 then
              dateToken (if and64 l.flag FlgUTC ≠ 0 then now.UTC else now) else "") ++
          (if and64 l.flag FlgTime ≠ 0 then
              timeToken l.flag (if and64 l.flag FlgUTC ≠ 0 then now.UTC else now) else "") ++
          (if and64 l.flag (or64 FlgShortFile FlgLongFile) ≠ 0 then
              callerToken l.flag rt.Caller else "") ++
          (if and64 l.flag FlgPID ≠ 0 then pidToken rt.Getpid else "")
        else "") := by
  unfold Log.buildHeader dateToken timeToken callerToken callerFile pidToken
  apply String.ext
  by_cases hg : and64 l.flag (or64 FlgDate FlgTime) ≠ 0 <;>
  by_cases hd : and64 l.flag FlgDate ≠ 0 <;>
  by_cases ht : and64 l.flag FlgTime ≠ 0 <;>
  by_cases hm : and64 l.flag FlgMicroseconds ≠ 0 <;>
  by_cases hc : and64 l.flag (or64 FlgShortFile FlgLongFile) ≠ 0 <;>
  by_cases hp : and64 l.flag FlgPID ≠ 0 <;>
  simp [hg, hd, ht, hm, hc, hp, String.data_append]



/-- Every interface method is: gate, `output` when the gate passes, then the
ending of that method. -/
theorem call_eq {α : Type} (m : Method) (l : Log) (rt : Host α) (format : String)
    (v : List α) (tr : Writes) :
    m.call l rt format v tr =
      (if m.severity ≥ l.level then l.output rt m.tag (m.msg rt format v) tr else (l, tr),
        m.ending (m.msg rt format v)) := by
  cases m <;>
    simp only [Method.call, Method.severity, Method.tag, Method.msg, Method.ending,
      Log.Trace, Log.Debug, Log.Info, Log.Warn, Log.Error, Log.Panic, Log.Fatal,
      Log.Tracef, Log.Debugf, Log.Infof, Log.Warnf, Log.Errorf, Log.Panicf, Log.Fatalf] <;>
    split <;> rfl

/-- What `output` leaves behind: the logger itself and one more `Write` per
destination. -/
theorem output_eq {α : Type} (l : Log) (rt : Host α) (level msg : String) (tr : Writes) :
    l.output rt level msg tr =
      (l, tr ++ l.out.map (fun dst => (dst.name, l.record rt level msg))) := by
  simp [Log.output, writeAll_eq]

/-! ## Claims -/

/-- C1: for every logger level (any integer) and each of the fourteen severity
methods, the call writes the record to the sinks exactly when the method's
severity is at least the logger's level, and when the severity is below the
level the sinks receive nothing: the trace of writes is unchanged. -/
theorem gate_iff_severity {α : Type} (m : Method) (l : Log) (rt : Host α)
    (format : String) (v : List α) (tr : Writes) :
    (m.call l rt format v tr).1.2 =
        (if m.severity ≥ l.level then
          tr ++ l.out.map (fun dst => (dst.name, l.record rt m.tag (m.msg rt format v)))
        else tr)
      ∧ ((m.call l rt format v tr).1.2 ≠ tr ↔ (m.severity ≥ l.level ∧ l.out ≠ [])) := by
  rw [call_eq]
  by_cases hg : m.severity ≥ l.level
  · simp [hg, output_eq]
  · simp [hg]

/-- C1, the scenario of the specification: on the logger
`New(FlgDate|FlgTime|FlgPID, LvlWarn, sinkA, sinkB)`, `Info("x")` writes
nothing and `Warn("y")` writes one record to each sink. -/
theorem warn_logger_scenario :
    (New (or64 (or64 FlgDate FlgTime) FlgPID) LvlWarn [sinkA, sinkB] []).2
        = Result.ret warnLogger
      ∧ (warnLogger.Info demoHost ["x"] []).1.2 = []
      ∧ (warnLogger.Warn demoHost ["y"] []).1.2 =
          [(0, "[WARN] 1970-01-01 00:00:00 PID1234 y\n"),
           (1, "[WARN] 1970-01-01 00:00:00 PID1234 y\n")] :=
  ⟨rfl,
   (gate_iff_severity Method.Info warnLogger demoHost "" ["x"] []).1.trans (by decide),
   (gate_iff_severity Method.Warn warnLogger demoHost "" ["y"] []).1.trans (by decide)⟩

/-- C2: the record built by `output` is header, message and one newline when
the message is empty or does not end in a newline, and header and message
with nothing appended when the message ends in a newline; in both cases the
record ends in a newline. -/
theorem record_terminator {α : Type} (l : Log) (rt : Host α) (level msg : String) :
    ((msg = "" ∨ msg.data.getLast? ≠ some '\n') →
        l.record rt level msg = l.buildHeader rt "" level rt.Now ++ msg ++ "\n")
      ∧ (msg.data.getLast? = some '\n' →
        l.record rt level msg = l.buildHeader rt "" level rt.Now ++ msg)
      ∧ (l.record rt level msg).data.getLast? = some '\n' := by
  refine ⟨?_, ?_, ?_⟩
  · intro h
    have hn : msg.data.getLast? ≠ some '\n' := by
      rcases h with h | h
      · subst h; simp
      · exact h
    rw [record_eq, terminator, if_neg hn]
  · intro h
    rw [record_eq, terminator, if_pos h]
    apply String.ext
    simp [String.data_append]
  · rw [record_eq, terminator]
    by_cases h : msg.data.getLast? = some '\n'
    · simp [h, String.data_append, List.getLast?_append]
    · simp [h, String.data_append, List.getLast?_append]

/-- C2 at the messages `"done"` and `"done\n"`: both records are the header
followed by `"done\n"`. -/
theorem record_terminator_witness :
    warnLogger.record demoHost "INFO" "done"
        = warnLogger.buildHeader demoHost "" "INFO" demoHost.Now ++ "done" ++ "\n"
      ∧ warnLogger.record demoHost "INFO" "done\n"
        = warnLogger.buildHeader demoHost "" "INFO" demoHost.Now ++ "done\n" :=
  ⟨(record_terminator warnLogger demoHost "INFO" "done").1 (by decide),
   (record_terminator warnLogger demoHost "INFO" "done\n").2.1 (by decide)⟩



/-- C3: when `FlgDate` or `FlgTime` is set, the header is `"[LEVEL] "`
followed, in this order, by the date token iff `FlgDate` is set, the time
token iff `FlgTime` is set, the caller token iff `FlgLongFile` or
`FlgShortFile` is set, and the process id token iff `FlgPID` is set, and
nothing else. -/
theorem header_fixed_order {α : Type} (l : Log) (rt : Host α) (level : String) (now : Time)
    (h : and64 l.flag FlgDate ≠ 0 ∨ and64 l.flag FlgTime ≠ 0) :
    l.buildHeader rt "" level now =
      "[" ++ level ++ "] "
        ++ (if and64 l.flag FlgDate ≠ 0 then
              dateToken (if and64 l.flag FlgUTC ≠ 0 then now.UTC else now) else "")
        ++ (if and64 l.flag FlgTime ≠ 0 then
              timeToken l.flag (if and64 l.flag FlgUTC ≠ 0 then now.UTC else now) else "")
        ++ (if and64 l.flag FlgLongFile ≠ 0 ∨ and64 l.flag FlgShortFile ≠ 0 then
              callerToken l.flag rt.Caller else "")
        ++ (if and64 l.flag FlgPID ≠ 0 then pidToken rt.Getpid else "") := by
  have hg : and64 l.flag (or64 FlgDate FlgTime) ≠ 0 := (and64_or64_ne_zero _ _ _).mpr h
  have hc : and64 l.flag (or64 FlgShortFile FlgLongFile) ≠ 0 ↔
      (and64 l.flag FlgLongFile ≠ 0 ∨ and64 l.flag FlgShortFile ≠ 0) := by
    rw [and64_or64_ne_zero]; exact Or.comm
  rw [buildHeader_eq, if_pos hg]
  simp only [hc]
  apply String.ext
  simp [String.data_append]

/-- C3 at flags `FlgDate | FlgTime`, level tag `INFO` and the epoch: the
header is `"[INFO] 1970-01-01 00:00:00 "`. -/
theorem header_fixed_order_witness :
    stdLikeLogger.buildHeader demoHost "" "INFO" epoch = "[INFO] 1970-01-01 00:00:00 " :=
  (header_fixed_order stdLikeLogger demoHost "INFO" epoch (by decide)).trans (by decide)

/-- C4: `New` panics exactly when both the `FlgLongFile` bit and the
`FlgShortFile` bit are set in `flag`; otherwise it returns a logger holding
exactly the given flags, level and sinks in the given order; in both cases no
write has been issued. -/
theorem New_panics_iff_both_file_flags (flag level : Int) (out : List Writer) (tr : Writes) :
    ((∃ v, (New flag level out tr).2 = Result.panic v) ↔
        (and64 flag FlgLongFile ≠ 0 ∧ and64 flag FlgShortFile ≠ 0))
      ∧ (¬(and64 flag FlgLongFile ≠ 0 ∧ and64 flag FlgShortFile ≠ 0) →
          ∃ l, (New flag level out tr).2 = Result.ret l
            ∧ l.flag = flag ∧ l.Level = level ∧ l.out = out)
      ∧ (New flag level out tr).1 = tr := by
  by_cases hb : and64 flag FlgLongFile ≠ 0 ∧ and64 flag FlgShortFile ≠ 0
  · have hN : New flag level out tr =
        (tr, Result.panic "yagl: FlgLongFile and FlgShortFile flag can not be both set") :=
      if_pos hb
    rw [hN]
    exact ⟨⟨fun _ => hb, fun _ => ⟨_, rfl⟩⟩, fun h => absurd hb h, rfl⟩
  · have hN : New flag level out tr =
        (tr, Result.ret { flag := flag, level := level, out := out }) := if_neg hb
    rw [hN]
    refine ⟨⟨?_, fun h => absurd h hb⟩, fun _ => ⟨_, rfl, rfl, rfl, rfl⟩, rfl⟩
    rintro ⟨v, hv⟩
    cases hv

/-- C4 at `New(FlgStdFlags, LvlInfo, sinkA)`, which returns, and at
`New(FlgLongFile|FlgShortFile, LvlInfo, sinkA)`, which panics. -/
theorem New_panics_iff_both_file_flags_witness :
    (∃ l, (New FlgStdFlags LvlInfo [sinkA] []).2 = Result.ret l
        ∧ l.flag = FlgStdFlags ∧ l.Level = LvlInfo ∧ l.out = [sinkA])
      ∧ (∃ v, (New (or64 FlgLongFile FlgShortFile) LvlInfo [sinkA] []).2 = Result.panic v) :=
  ⟨(New_panics_iff_both_file_flags FlgStdFlags LvlInfo [sinkA] []).2.1 (by decide),
   (New_panics_iff_both_file_flags (or64 FlgLongFile FlgShortFile) LvlInfo [sinkA] []).1.mpr
      (by decide)⟩

/-- C5: `Panic` and `Panicf` always end with a panic whose payload is the
rendered message alone, `Fatal` and `Fatalf` always end with exit status 1,
whatever the logger level; when the level is above `LvlPanic` (`LvlFatal`)
they do so without issuing any write. -/
theorem abrupt_endings_ignore_gate {α : Type} (l : Log) (rt : Host α) (format : String)
    (v : List α) (tr : Writes) :
    (l.Panic rt v tr).2 = Result.panic (rt.Sprint v)
      ∧ (l.Panicf rt format v tr).2 = Result.panic (rt.Sprintf format v)
      ∧ (l.Fatal rt v tr).2 = Result.exit 1
      ∧ (l.Fatalf rt format v tr).2 = Result.exit 1
      ∧ (l.level > LvlPanic →
          (l.Panic rt v tr).1.2 = tr ∧ (l.Panicf rt format v tr).1.2 = tr)
      ∧ (l.level > LvlFatal →
          (l.Fatal rt v tr).1.2 = tr ∧ (l.Fatalf rt format v tr).1.2 = tr) := by
  refine ⟨rfl, rfl, rfl, rfl, ?_, ?_⟩
  · intro h
    have hn : ¬ LvlPanic ≥ l.level := not_le.mpr h
    simp [Log.Panic, Log.Panicf, hn]
  · intro h
    have hn : ¬ LvlFatal ≥ l.level := not_le.mpr h
    simp [Log.Fatal, Log.Fatalf, hn]

/-- C5 at `Panic("boom")` on a logger whose level is above `LvlPanic`: no
write is issued and the call panics with payload `"boom"`. -/
theorem abrupt_endings_ignore_gate_witness :
    muteLogger.level > LvlPanic
      ∧ (muteLogger.Panic demoHost ["boom"] []).1.2 = []
      ∧ (muteLogger.Panic demoHost ["boom"] []).2 = Result.panic "boom" :=
  ⟨by decide,
   ((abrupt_endings_ignore_gate muteLogger demoHost "" ["boom"] []).2.2.2.2.1 (by decide)).1,
   (abrupt_endings_ignore_gate muteLogger demoHost "" ["boom"] []).1⟩



/-- C6: `output` issues one `Write` per destination, in registration order,
each with the same complete record (header, message, optional newline), and
leaves the logger's flags, level and destinations as they were; so does every
interface method whose gate passes. -/
theorem output_writes_each_sink_once {α : Type} (l : Log) (rt : Host α) (level msg : String)
    (tr : Writes) :
    (l.output rt level msg tr).2 =
        tr ++ l.out.map
          (fun dst => (dst.name, l.buildHeader rt "" level rt.Now ++ msg ++ terminator msg))
      ∧ (l.output rt level msg tr).1.flag = l.flag
      ∧ (l.output rt level msg tr).1.level = l.level
      ∧ (l.output rt level msg tr).1.out = l.out
      ∧ ∀ (m : Method) (format : String) (v : List α), m.severity ≥ l.level →
          m.call l rt format v tr =
            ((l, tr ++ l.out.map (fun dst => (dst.name,
                l.buildHeader rt "" m.tag rt.Now ++ m.msg rt format v
                  ++ terminator (m.msg rt format v)))),
              m.ending (m.msg rt format v)) := by
  refine ⟨?_, ?_, ?_, ?_, ?_⟩
  · rw [output_eq, record_eq]
  · rw [output_eq]
  · rw [output_eq]
  · rw [output_eq]
  · intro m format v hg
    rw [call_eq, if_pos hg, output_eq, record_eq]

/-- C6 at `Warn("y")` on a logger with two destinations: destination 0 is
written first, destination 1 second, both with the same record. -/
theorem output_writes_each_sink_once_witness :
    Method.Warn.call warnLogger demoHost "" ["y"] [] =
      ((warnLogger,
          [(0, "[WARN] 1970-01-01 00:00:00 PID1234 y\n"),
           (1, "[WARN] 1970-01-01 00:00:00 PID1234 y\n")]),
        Result.ret ()) :=
  ((output_writes_each_sink_once warnLogger demoHost "WARN" "y" []).2.2.2.2
      Method.Warn "" ["y"] (by decide)).trans
    (by
      have h : ([] : Writes) ++ warnLogger.out.map (fun dst => (dst.name,
            warnLogger.buildHeader demoHost "" Method.Warn.tag demoHost.Now
              ++ Method.Warn.msg demoHost "" ["y"]
              ++ terminator (Method.Warn.msg demoHost "" ["y"])))
          = [(0, "[WARN] 1970-01-01 00:00:00 PID1234 y\n"),
             (1, "[WARN] 1970-01-01 00:00:00 PID1234 y\n")] := by decide
      rw [h]
      rfl)

/-- C7: whatever the destinations' `Write` calls return, a call that passes
the gate issues its `Write` on every destination with the full record, so a
destination that comes after a failing one still receives it, and a method
below `Panic` returns normally. -/
theorem write_errors_are_dropped {α : Type} (m : Method) (l : Log) (rt : Host α)
    (format : String) (v : List α) (tr : Writes)
    (hm : m.severity < LvlPanic) (hg : m.severity ≥ l.level) :
    (m.call l rt format v tr).2 = Result.ret ()
      ∧ (m.call l rt format v tr).1.2 =
          tr ++ l.out.map (fun dst => (dst.name, l.record rt m.tag (m.msg rt format v)))
      ∧ ∀ (i j : Nat) (di dj : Writer), i < j →
          l.out[i]? = some di →
          (∃ e, (di.result (l.record rt m.tag (m.msg rt format v))).2 = some e) →
          l.out[j]? = some dj →
          (m.call l rt format v tr).1.2[tr.length + j]? =
            some (dj.name, l.record rt m.tag (m.msg rt format v)) := by
  rw [call_eq, if_pos hg, output_eq]
  refine ⟨?_, rfl, ?_⟩
  · cases m <;> first | rfl | (exact absurd hm (by decide))
  · intro i j di dj _ _ _ hj
    simp [List.getElem?_append_right, hj]

/-- C7 at `Error("disk full")` on a logger whose first destination fails: the
second destination still receives the record and the call returns. -/
theorem write_errors_are_dropped_witness :
    (sinkB.result "[ERROR] 1970-01-01 00:00:00 disk full\n").2 = some "write failed"
      ∧ (Method.Error.call flakyLogger demoHost "" ["disk full"] []).2 = Result.ret ()
      ∧ (Method.Error.call flakyLogger demoHost "" ["disk full"] []).1.2 =
          [(1, "[ERROR] 1970-01-01 00:00:00 disk full\n"),
           (0, "[ERROR] 1970-01-01 00:00:00 disk full\n")] :=
  ⟨rfl,
   (write_errors_are_dropped Method.Error flakyLogger demoHost "" ["disk full"] []
      (by decide) (by decide)).1,
   (write_errors_are_dropped Method.Error flakyLogger demoHost "" ["disk full"] []
      (by decide) (by decide)).2.1.trans (by decide)⟩

/-- C8, the code at flags without `FlgDate` and `FlgTime`: with `FlgPID`
alone, and with `FlgShortFile` alone, `buildHeader` writes the level tag
only; the process id token and the caller token are missing. -/
theorem header_drops_pid_and_caller_without_date_time :
    pidOnlyLogger.buildHeader demoHost "" "INFO" epoch = "[INFO] "
      ∧ fileOnlyLogger.buildHeader demoHost "" "INFO" epoch = "[INFO] "
      ∧ pidToken demoHost.Getpid = "PID1234 "
      ∧ callerToken fileOnlyLogger.flag demoHost.Caller = "file.go:23 " := by
  decide

/-- C9: when neither `FlgDate` nor `FlgTime` is set, whatever the other flags
are, the header is exactly `"[LEVEL] "`, and the record is that header, the
message and the optional newline. -/
theorem header_is_tag_without_date_time {α : Type} (l : Log) (rt : Host α)
    (level msg : String) (now : Time)
    (hd : and64 l.flag FlgDate = 0) (ht : and64 l.flag FlgTime = 0) :
    l.buildHeader rt "" level now = "[" ++ level ++ "] "
      ∧ l.record rt level msg = "[" ++ level ++ "] " ++ msg ++ terminator msg := by
  have hg : ¬ and64 l.flag (or64 FlgDate FlgTime) ≠ 0 := by
    rw [and64_or64_ne_zero]
    simp [hd, ht]
  have hh : ∀ t : Time, l.buildHeader rt "" level t = "[" ++ level ++ "] " := by
    intro t
    rw [buildHeader_eq, if_neg hg]
    apply String.ext
    simp [String.data_append]
  exact ⟨hh now, by rw [record_eq, hh]⟩

/-- C9 at a logger with `FlgMicroseconds`, `FlgLongFile`, `FlgPID` and
`FlgUTC` set and `FlgDate`, `FlgTime` clear. -/
theorem header_is_tag_without_date_time_witness :
    undatedLogger.buildHeader demoHost "" "WARN" epoch = "[WARN] "
      ∧ undatedLogger.record demoHost "WARN" "low disk" = "[WARN] low disk\n" :=
  ⟨(header_is_tag_without_date_time undatedLogger demoHost "WARN" "low disk" epoch
      (by decide) (by decide)).1,
   (header_is_tag_without_date_time undatedLogger demoHost "WARN" "low disk" epoch
      (by decide) (by decide)).2.trans (by decide)⟩

/-- C10, the code at a timestamp of five microseconds (and at zero) with
`FlgTime | FlgMicroseconds`: the fraction is written with verb `%02d`, two
digits wide, `.05` (and `.00`), not six. -/
theorem microseconds_are_two_digits_wide :
    microLogger.buildHeader demoHost "" "INFO" fiveMicros = "[INFO] 00:00:00.05 "
      ∧ microLogger.buildHeader demoHost "" "INFO" epoch = "[INFO] 00:00:00.00 "
      ∧ timeToken microLogger.flag fiveMicros = "00:00:00.05 "
      ∧ timeToken microLogger.flag fiveMicros ≠ "00:00:00.000005 " := by
  decide



/-! ## Lemmas on the last bytes of a record -/

theorem getLast_append_space (s : String) : (s ++ " ").data.getLast? = some ' ' := by
  rw [String.data_append]
  exact List.getLast?_concat s.data

theorem getLast_append_opt (a b : String) (ha : a.data.getLast? = some ' ')
    (hb : b = "" ∨ b.data.getLast? = some ' ') : (a ++ b).data.getLast? = some ' ' := by
  rw [String.data_append, List.getLast?_append]
  rcases hb with hb | hb
  · subst hb
    simpa using ha
  · rw [hb]
    rfl

theorem opt_append (a b : String) (ha : a = "" ∨ a.data.getLast? = some ' ')
    (hb : b = "" ∨ b.data.getLast? = some ' ') :
    a ++ b = "" ∨ (a ++ b).data.getLast? = some ' ' := by
  rcases ha with ha | ha
  · subst ha
    have e : "" ++ b = b := String.ext (by simp [String.data_append])
    rw [e]
    exact hb
  · exact Or.inr (getLast_append_opt a b ha hb)

theorem opt_ite (c : Prop) [Decidable c] (tok : String) (h : tok.data.getLast? = some ' ') :
    (if c then tok else "") = "" ∨ (if c then tok else "").data.getLast? = some ' ' := by
  by_cases hc : c
  · rw [if_pos hc]
    exact Or.inr h
  · rw [if_neg hc]
    exact Or.inl rfl

theorem timeToken_getLast (flag : Int) (t : Time) :
    (timeToken flag t).data.getLast? = some ' ' := by
  unfold timeToken
  split <;> exact getLast_append_space _

/-- Every header ends in a space. -/
theorem buildHeader_getLast {α : Type} (l : Log) (rt : Host α) (level : String) (now : Time) :
    (l.buildHeader rt "" level now).data.getLast? = some ' ' := by
  rw [buildHeader_eq]
  apply getLast_append_opt
  · rw [String.data_append, List.getLast?_append]
    rfl
  · by_cases hg : and64 l.flag (or64 FlgDate FlgTime) ≠ 0
    · rw [if_pos hg]
      exact opt_append _ _
        (opt_append _ _
          (opt_append _ _ (opt_ite _ _ (getLast_append_space _))
            (opt_ite _ _ (timeToken_getLast _ _)))
          (opt_ite _ _ (getLast_append_space _)))
        (opt_ite _ _ (getLast_append_space _))
    · rw [if_neg hg]
      exact Or.inl rfl

/-- C11, the code at the paths `/a/b/c/d.go` and `/d.go`: the loop stops
before index 0, so a path whose only separator is its first byte is kept
whole, separator included. -/
theorem short_file_keeps_leading_separator :
    shortLoop "/a/b/c/d.go" ("/a/b/c/d.go".length - 1) = "d.go"
      ∧ shortLoop "/d.go" ("/d.go".length - 1) = "/d.go"
      ∧ callerFile FlgShortFile rootFileHost.Caller = "/d.go"
      ∧ shortFileLogger.buildHeader rootFileHost "" "INFO" epoch
          = "[INFO] 1970-01-01 /d.go:23 " := by
  decide

/-- C12 as stated fails at the message `"done\n\n"`: the record ends in two
newline bytes. -/
theorem record_keeps_double_newline :
    ¬((stdLikeLogger.record demoHost "INFO" "done\n\n").data.getLast? = some '\n'
        ∧ (stdLikeLogger.record demoHost "INFO" "done\n\n").data.dropLast.getLast?
            ≠ some '\n') := by
  decide

/-- C12 amended: every record ends in a newline byte, and when the message
does not itself end in two newline bytes the byte before that newline is not
a newline. -/
theorem record_single_terminator {α : Type} (l : Log) (rt : Host α) (level msg : String)
    (h : ¬(msg.data.getLast? = some '\n' ∧ msg.data.dropLast.getLast? = some '\n')) :
    (l.record rt level msg).data.getLast? = some '\n'
      ∧ (l.record rt level msg).data.dropLast.getLast? ≠ some '\n' := by
  have hH := buildHeader_getLast l rt level rt.Now
  rw [record_eq, terminator]
  by_cases hl : msg.data.getLast? = some '\n'
  · have hne : msg.data ≠ [] := by
      intro h0
      rw [h0] at hl
      simp at hl
    have hd : msg.data.dropLast.getLast? ≠ some '\n' := fun hd => h ⟨hl, hd⟩
    rw [if_pos hl]
    refine ⟨by simp [String.data_append, List.getLast?_append, hl], ?_⟩
    have e : (l.buildHeader rt "" level rt.Now ++ msg ++ "").data
        = (l.buildHeader rt "" level rt.Now).data ++ msg.data := by
      simp [String.data_append]
    rw [e, List.dropLast_append_of_ne_nil _ hne, List.getLast?_append, hH]
    cases hm : msg.data.dropLast.getLast? with
    | none => simp
    | some c =>
      rw [hm] at hd
      simpa using hd
  · rw [if_neg hl]
    refine ⟨by simp [String.data_append, List.getLast?_append], ?_⟩
    have e : (l.buildHeader rt "" level rt.Now ++ msg ++ "\n").data
        = ((l.buildHeader rt "" level rt.Now).data ++ msg.data) ++ ['\n'] := by
      simp [String.data_append]
    rw [e, List.dropLast_concat, List.getLast?_append, hH]
    cases hm : msg.data.getLast? with
    | none => simp
    | some c =>
      rw [hm] at hl
      simpa using hl

/-- C12 amended, at the messages `"done"` and `"done\n"`: both records end in
`"e\n"`. -/
theorem record_single_terminator_witness :
    ((stdLikeLogger.record demoHost "INFO" "done").data.getLast? = some '\n'
        ∧ (stdLikeLogger.record demoHost "INFO" "done").data.dropLast.getLast? ≠ some '\n')
      ∧ ((stdLikeLogger.record demoHost "INFO" "done\n").data.getLast? = some '\n'
        ∧ (stdLikeLogger.record demoHost "INFO" "done\n").data.dropLast.getLast?
            ≠ some '\n') :=
  ⟨record_single_terminator stdLikeLogger demoHost "INFO" "done" (by decide),
   record_single_terminator stdLikeLogger demoHost "INFO" "done\n" (by decide)⟩

/-- C13, the code of `std.go`: the standard logger has flags
`FlgDate | FlgTime` and level `LvlInfo`, but its single destination is
`os.Stderr`, not `os.Stdout`; the package function `Info` writes there. -/
theorem std_logger_writes_to_stderr :
    (New FlgStdFlags LvlInfo [Stderr] []).2 = Result.ret StdLogger
      ∧ StdLogger.flag = or64 FlgDate FlgTime
      ∧ StdLogger.Level = LvlInfo
      ∧ StdLogger.out.map Writer.name = [Stderr.name]
      ∧ StdLogger.out.map Writer.name ≠ [Stdout.name]
      ∧ (Info demoHost ["x"] []).1.2 = [(Stderr.name, "[INFO] 1970-01-01 00:00:00 x\n")] :=
  ⟨rfl, by decide, by decide, by decide, by decide, by decide⟩

/-- C15: the level constants are 0, 10, 20, 30, 40, 50, 60 in the order
Trace, Debug, Info, Warn, Error, Panic, Fatal: strictly increasing, each a
multiple of 10, with step 10 between neighbours. -/
theorem level_constants :
    [LvlTrace, LvlDebug, LvlInfo, LvlWarn, LvlError, LvlPanic, LvlFatal]
        = [0, 10, 20, 30, 40, 50, 60]
      ∧ (LvlTrace < LvlDebug ∧ LvlDebug < LvlInfo ∧ LvlInfo < LvlWarn ∧ LvlWarn < LvlError
          ∧ LvlError < LvlPanic ∧ LvlPanic < LvlFatal)
      ∧ (∀ x ∈ [LvlTrace, LvlDebug, LvlInfo, LvlWarn, LvlError, LvlPanic, LvlFatal],
          x % 10 = 0)
      ∧ (LvlDebug - LvlTrace = 10 ∧ LvlInfo - LvlDebug = 10 ∧ LvlWarn - LvlInfo = 10
          ∧ LvlError - LvlWarn = 10 ∧ LvlPanic - LvlError = 10 ∧ LvlFatal - LvlPanic = 10) := by
  decide



/-! ## Lemmas on single flag bits -/

theorem bits64_natCast {n : Nat} (h : n < two64) : bits64 (n : Int) = n := by
  unfold bits64
  unfold two64 at *
  omega

theorem bits64_or64 (a b : Int) : bits64 (or64 a b) = bits64 a ||| bits64 b := by
  unfold or64
  apply bits64_ofBits64
  unfold two64
  exact Nat.or_lt_two_pow (bits64_lt a) (bits64_lt b)

theorem bits64_andNot64 (a b : Int) :
    bits64 (andNot64 a b) = bits64 a &&& (two64 - 1 - bits64 b) := by
  unfold andNot64
  apply bits64_ofBits64
  exact lt_of_le_of_lt Nat.and_le_left (bits64_lt a)

theorem land_two_pow_ne_zero (x j : Nat) : x &&& 2 ^ j ≠ 0 ↔ x.testBit j = true := by
  rw [Nat.and_two_pow]
  cases h : x.testBit j
  · simp
  · simp

theorem flag_of_mem {A : Int} (hA : A ∈ flagBits) : ∃ k, k < 7 ∧ A = ((2 ^ k : Nat) : Int) := by
  simp only [flagBits, List.mem_cons, List.mem_singleton, List.not_mem_nil, or_false] at hA
  rcases hA with rfl | rfl | rfl | rfl | rfl | rfl | rfl
  · exact ⟨0, by decide, by decide⟩
  · exact ⟨1, by decide, by decide⟩
  · exact ⟨2, by decide, by decide⟩
  · exact ⟨3, by decide, by decide⟩
  · exact ⟨4, by decide, by decide⟩
  · exact ⟨5, by decide, by decide⟩
  · exact ⟨6, by decide, by decide⟩

theorem two_pow_lt_two64 {k : Nat} (hk : k < 7) : 2 ^ k < two64 := by
  unfold two64
  exact Nat.pow_lt_pow_right (by decide) (by omega)

/-- Setting or clearing bit `k` leaves the test of another bit `j` as it was. -/
theorem bit_test_independent (f : Int) (k j : Nat) (hk : k < 7) (hj : j < 7) (hkj : k ≠ j) :
    (and64 (or64 f ((2 ^ k : Nat) : Int)) ((2 ^ j : Nat) : Int) ≠ 0
        ↔ and64 f ((2 ^ j : Nat) : Int) ≠ 0)
      ∧ (and64 (andNot64 f ((2 ^ k : Nat) : Int)) ((2 ^ j : Nat) : Int) ≠ 0
        ↔ and64 f ((2 ^ j : Nat) : Int) ≠ 0) := by
  have hk64 : 2 ^ k < 2 ^ 64 := Nat.pow_lt_pow_right (by decide) (by omega)
  have hjb : (2 ^ k).testBit j = false := Nat.testBit_two_pow_of_ne hkj
  have hcompl : two64 - 1 - 2 ^ k = 2 ^ 64 - (2 ^ k + 1) := by
    unfold two64
    omega
  constructor
  · rw [and64_ne_zero, and64_ne_zero, bits64_or64, bits64_natCast (two_pow_lt_two64 hk),
      bits64_natCast (two_pow_lt_two64 hj), land_two_pow_ne_zero, land_two_pow_ne_zero,
      Nat.testBit_or, hjb, Bool.or_false]
  · rw [and64_ne_zero, and64_ne_zero, bits64_andNot64, bits64_natCast (two_pow_lt_two64 hk),
      bits64_natCast (two_pow_lt_two64 hj), land_two_pow_ne_zero, land_two_pow_ne_zero,
      Nat.testBit_and, hcompl, Nat.testBit_two_pow_sub_succ hk64, hjb]
    have hj64 : j < 64 := by omega
    simp [hj64]

/-- C16: the seven flag constants are the single bits 1, 2, 4, 8, 16, 32, 64
and `FlgStdFlags` is `FlgDate | FlgTime`, that is 3; for every flag word `f`
and two distinct flags `A` and `B`, setting `A` in `f` or clearing `A` in `f`
does not change whether `f & B != 0`. -/
theorem flags_are_independent_bits (f A B : Int) (hA : A ∈ flagBits) (hB : B ∈ flagBits)
    (hne : A ≠ B) :
    flagBits = [1, 2, 4, 8, 16, 32, 64]
      ∧ flagBits.Nodup
      ∧ FlgStdFlags = or64 FlgDate FlgTime
      ∧ FlgStdFlags = 3
      ∧ (and64 (or64 f A) B ≠ 0 ↔ and64 f B ≠ 0)
      ∧ (and64 (andNot64 f A) B ≠ 0 ↔ and64 f B ≠ 0) := by
  obtain ⟨k, hk, rfl⟩ := flag_of_mem hA
  obtain ⟨j, hj, rfl⟩ := flag_of_mem hB
  have hkj : k ≠ j := fun e => hne (by rw [e])
  exact ⟨by decide, by decide, rfl, by decide, bit_test_independent f k j hk hj hkj⟩

/-- C16 at the flag word `FlgStdFlags`, with `A = FlgPID` and `B = FlgDate`:
the date test passes before and after `FlgPID` is set or cleared. -/
theorem flags_are_independent_bits_witness :
    and64 FlgStdFlags FlgDate ≠ 0
      ∧ and64 (or64 FlgStdFlags FlgPID) FlgDate ≠ 0
      ∧ and64 (andNot64 FlgStdFlags FlgPID) FlgDate ≠ 0 :=
  have h := flags_are_independent_bits FlgStdFlags FlgPID FlgDate (by decide) (by decide)
    (by decide)
  ⟨by decide, h.2.2.2.2.1.mpr (by decide), h.2.2.2.2.2.mpr (by decide)⟩

/-- C17: when the template and its operands render to the same string as the
plain operand list, each formatted method does exactly what its plain
counterpart does: same gate, same tag, same writes, same ending. -/
theorem formatted_equals_plain {α : Type} (l : Log) (rt : Host α) (format : String)
    (v w : List α) (tr : Writes) (h : rt.Sprintf format v = rt.Sprint w) :
    l.Tracef rt format v tr = l.Trace rt w tr
      ∧ l.Debugf rt format v tr = l.Debug rt w tr
      ∧ l.Infof rt format v tr = l.Info rt w tr
      ∧ l.Warnf rt format v tr = l.Warn rt w tr
      ∧ l.Errorf rt format v tr = l.Error rt w tr
      ∧ l.Panicf rt format v tr = l.Panic rt w tr
      ∧ l.Fatalf rt format v tr = l.Fatal rt w tr := by
  simp only [Log.Tracef, Log.Debugf, Log.Infof, Log.Warnf, Log.Errorf, Log.Panicf, Log.Fatalf,
    Log.Trace, Log.Debug, Log.Info, Log.Warn, Log.Error, Log.Panic, Log.Fatal, h, and_self]

/-- C17 at `Infof("ready")` against `Info("ready")` and `Panicf("boom")`
against `Panic("boom")`. -/
theorem formatted_equals_plain_witness :
    stdLikeLogger.Infof demoHost "ready" [] [] = stdLikeLogger.Info demoHost ["ready"] []
      ∧ (stdLikeLogger.Infof demoHost "ready" [] []).1.2
          = [(0, "[INFO] 1970-01-01 00:00:00 ready\n")]
      ∧ muteLogger.Panicf demoHost "boom" [] [] = muteLogger.Panic demoHost ["boom"] []
      ∧ (muteLogger.Panicf demoHost "boom" [] []).2 = Result.panic "boom" :=
  ⟨(formatted_equals_plain stdLikeLogger demoHost "ready" [] ["ready"] [] (by decide)).2.2.1,
   by decide,
   (formatted_equals_plain muteLogger demoHost "boom" [] ["boom"] [] (by decide)).2.2.2.2.2.1,
   by decide⟩



/-! ## Lemmas on decimal numerals -/

theorem toDigits_one (n : Nat) (h : n < 10) : Nat.toDigits 10 n = [Nat.digitChar n] := by
  have h0 : n / 10 = 0 := by omega
  have h1 : n % 10 = n := by omega
  simp [Nat.toDigits, Nat.toDigitsCore, h0, h1]

theorem toDigits_two (n : Nat) (h1 : 10 ≤ n) (h : n < 100) :
    Nat.toDigits 10 n = [Nat.digitChar (n / 10), Nat.digitChar (n % 10)] := by
  obtain ⟨k, rfl⟩ : ∃ k, n = k + 1 := ⟨n - 1, by omega⟩
  have h0 : (k + 1) / 10 ≠ 0 := by omega
  have h2 : (k + 1) / 10 / 10 = 0 := by omega
  have h3 : (k + 1) / 10 % 10 = (k + 1) / 10 := by omega
  simp [Nat.toDigits, Nat.toDigitsCore, h0, h2, h3]

theorem toDigits_three (n : Nat) (h1 : 100 ≤ n) (h : n < 1000) :
    Nat.toDigits 10 n =
      [Nat.digitChar (n / 100), Nat.digitChar (n / 10 % 10), Nat.digitChar (n % 10)] := by
  obtain ⟨k, rfl⟩ : ∃ k, n = k + 2 := ⟨n - 2, by omega⟩
  have h0 : (k + 2) / 10 ≠ 0 := by omega
  have h2 : (k + 2) / 10 / 10 ≠ 0 := by omega
  have h3 : (k + 2) / 10 / 10 / 10 = 0 := by omega
  have h4 : (k + 2) / 10 / 10 % 10 = (k + 2) / 100 := by omega
  simp [Nat.toDigits, Nat.toDigitsCore, h0, h2, h3, h4]

theorem toDigits_four (n : Nat) (h1 : 1000 ≤ n) (h : n < 10000) :
    Nat.toDigits 10 n =
      [Nat.digitChar (n / 1000), Nat.digitChar (n / 100 % 10), Nat.digitChar (n / 10 % 10),
        Nat.digitChar (n % 10)] := by
  obtain ⟨k, rfl⟩ : ∃ k, n = k + 3 := ⟨n - 3, by omega⟩
  have h0 : (k + 3) / 10 ≠ 0 := by omega
  have h2 : (k + 3) / 10 / 10 ≠ 0 := by omega
  have h3 : (k + 3) / 10 / 10 / 10 ≠ 0 := by omega
  have h4 : (k + 3) / 10 / 10 / 10 / 10 = 0 := by omega
  have h5 : (k + 3) / 10 / 10 % 10 = (k + 3) / 100 % 10 := by omega
  have h6 : (k + 3) / 10 / 10 / 10 % 10 = (k + 3) / 1000 := by omega
  simp [Nat.toDigits, Nat.toDigitsCore, h0, h2, h3, h4, h5, h6]

theorem decimal_two (n : Nat) :
    decimal 2 n = String.mk [Nat.digitChar (n / 10 % 10), Nat.digitChar (n % 10)] := by
  simp [decimal, List.range_succ]

theorem decimal_four (n : Nat) :
    decimal 4 n = String.mk [Nat.digitChar (n / 1000 % 10), Nat.digitChar (n / 100 % 10),
      Nat.digitChar (n / 10 % 10), Nat.digitChar (n % 10)] := by
  simp [decimal, List.range_succ]

theorem decimal_length (w n : Nat) : (decimal w n).length = w := by
  simp [decimal, String.length]

/-- Verb `%02d` on `0 ≤ n < 100` writes the two-digit numeral of `n`. -/
theorem verb0D_two (n : Int) (h0 : 0 ≤ n) (h : n < 100) : verb0D 2 n = decimal 2 n.toNat := by
  obtain ⟨m, rfl⟩ := Int.eq_ofNat_of_zero_le h0
  have hm : m < 100 := by omega
  have hneg : ¬ ((m : Int) < 0) := by omega
  rw [decimal_two]
  simp only [verb0D, hneg, if_false, Int.natAbs_ofNat, Int.toNat_ofNat, Nat.repr,
    List.asString]
  by_cases c : m < 10
  · have z : m / 10 % 10 = 0 := by omega
    have y : m % 10 = m := by omega
    rw [toDigits_one m c, z, y]
    rfl
  · have z : m / 10 % 10 = m / 10 := by omega
    rw [toDigits_two m (by omega) hm, z]
    rfl

/-- Verb `%04d` on `0 ≤ n < 10000` writes the four-digit numeral of `n`. -/
theorem verb0D_four (n : Int) (h0 : 0 ≤ n) (h : n < 10000) :
    verb0D 4 n = decimal 4 n.toNat := by
  obtain ⟨m, rfl⟩ := Int.eq_ofNat_of_zero_le h0
  have hm : m < 10000 := by omega
  have hneg : ¬ ((m : Int) < 0) := by omega
  rw [decimal_four]
  simp only [verb0D, hneg, if_false, Int.natAbs_ofNat, Int.toNat_ofNat, Nat.repr,
    List.asString]
  by_cases c1 : m < 10
  · have z1 : m / 1000 % 10 = 0 := by omega
    have z2 : m / 100 % 10 = 0 := by omega
    have z3 : m / 10 % 10 = 0 := by omega
    have y : m % 10 = m := by omega
    rw [toDigits_one m c1, z1, z2, z3, y]
    rfl
  · by_cases c2 : m < 100
    · have z1 : m / 1000 % 10 = 0 := by omega
      have z2 : m / 100 % 10 = 0 := by omega
      have z3 : m / 10 % 10 = m / 10 := by omega
      rw [toDigits_two m (by omega) c2, z1, z2, z3]
      rfl
    · by_cases c3 : m < 1000
      · have z1 : m / 1000 % 10 = 0 := by omega
        have z2 : m / 100 % 10 = m / 100 := by omega
        rw [toDigits_three m (by omega) c3, z1, z2]
        rfl
      · have z1 : m / 1000 % 10 = m / 1000 := by omega
        rw [toDigits_four m (by omega) hm, z1]
        rfl



theorem digitChar_ne_space (n : Nat) : Nat.digitChar (n % 10) ≠ ' ' := by
  have h : n % 10 < 10 := Nat.mod_lt n (by decide)
  generalize n % 10 = d at h
  interval_cases d <;> decide

/-- C18: for calendar fields in range (year 0..9999, month 1..12, day 1..31,
hour 0..23, minute and second 0..59) the date token is the four-digit year,
`-`, the two-digit month, `-`, the two-digit day and one space, 11 characters
in all; without `FlgMicroseconds` the time token is the two-digit hour, `:`,
minute, `:`, second and one space, 9 characters in all; in both the byte
before the final space is a digit. -/
theorem date_time_token_widths (flag : Int) (t : Time)
    (hy : 0 ≤ t.loc.year ∧ t.loc.year ≤ 9999) (hmo : 1 ≤ t.loc.month ∧ t.loc.month ≤ 12)
    (hd : 1 ≤ t.loc.day ∧ t.loc.day ≤ 31) (hh : 0 ≤ t.loc.hour ∧ t.loc.hour ≤ 23)
    (hmi : 0 ≤ t.loc.min ∧ t.loc.min ≤ 59) (hs : 0 ≤ t.loc.sec ∧ t.loc.sec ≤ 59)
    (hmicro : and64 flag FlgMicroseconds = 0) :
    dateToken t =
        decimal 4 t.loc.year.toNat ++ "-" ++ decimal 2 t.loc.month.toNat ++ "-"
          ++ decimal 2 t.loc.day.toNat ++ " "
      ∧ (dateToken t).length = 11
      ∧ (dateToken t).data.getLast? = some ' '
      ∧ (dateToken t).data.dropLast.getLast? ≠ some ' '
      ∧ timeToken flag t =
        decimal 2 t.loc.hour.toNat ++ ":" ++ decimal 2 t.loc.min.toNat ++ ":"
          ++ decimal 2 t.loc.sec.toNat ++ " "
      ∧ (timeToken flag t).length = 9
      ∧ (timeToken flag t).data.getLast? = some ' '
      ∧ (timeToken flag t).data.dropLast.getLast? ≠ some ' ' := by
  have hdate : dateToken t =
      decimal 4 t.loc.year.toNat ++ "-" ++ decimal 2 t.loc.month.toNat ++ "-"
        ++ decimal 2 t.loc.day.toNat ++ " " := by
    simp only [dateToken, Time.Date]
    rw [verb0D_four _ hy.1 (by omega), verb0D_two _ (by omega) (by omega),
      verb0D_two _ (by omega) (by omega)]
  have htime : timeToken flag t =
      decimal 2 t.loc.hour.toNat ++ ":" ++ decimal 2 t.loc.min.toNat ++ ":"
        ++ decimal 2 t.loc.sec.toNat ++ " " := by
    simp only [timeToken, Time.Clock]
    rw [if_neg (by simp [hmicro]), verb0D_two _ hh.1 (by omega), verb0D_two _ hmi.1 (by omega),
      verb0D_two _ hs.1 (by omega)]
  have hlast : ∀ (a : String) (n : Nat),
      (a ++ decimal 2 n ++ " ").data.dropLast.getLast? ≠ some ' ' := by
    intro a n
    have e : (a ++ decimal 2 n ++ " ").data
        = (a.data ++ [Nat.digitChar (n / 10 % 10)]) ++ [Nat.digitChar (n % 10)] ++ [' '] := by
      rw [decimal_two]
      simp [String.data_append]
    rw [e, List.dropLast_concat, List.getLast?_concat]
    intro h
    exact digitChar_ne_space n (Option.some.inj h)
  refine ⟨hdate, ?_, ?_, ?_, htime, ?_, ?_, ?_⟩
  · rw [hdate]
    simp only [String.length_append, decimal_length]
    rfl
  · rw [hdate]
    exact getLast_append_space _
  · rw [hdate]
    exact hlast _ _
  · rw [htime]
    simp only [String.length_append, decimal_length]
    rfl
  · rw [htime]
    exact getLast_append_space _
  · rw [htime]
    exact hlast _ _

/-- C18 at 2009-01-23 01:23:23 with flags `FlgDate | FlgTime`: the tokens are
`"2009-01-23 "` and `"01:23:23 "`. -/
theorem date_time_token_widths_witness :
    dateToken sampleTime = "2009-01-23 " ∧ (dateToken sampleTime).length = 11
      ∧ timeToken FlgStdFlags sampleTime = "01:23:23 "
      ∧ (timeToken FlgStdFlags sampleTime).length = 9 :=
  have h := date_time_token_widths FlgStdFlags sampleTime (by decide) (by decide) (by decide)
    (by decide) (by decide) (by decide) (by decide)
  ⟨h.1.trans (by decide), h.2.1, h.2.2.2.2.1.trans (by decide), h.2.2.2.2.2.1⟩

/-- C19: with `FlgDate` or `FlgTime` set and a caller-path flag set, when the
caller frame is not resolved the caller token is `"???:0 "` under either
caller-path flag; when it is resolved under `FlgLongFile` (so, on a logger
`New` accepts, without `FlgShortFile`) the token is the full path, `:`, the
line in decimal and one space. The header carries that token between the time
token and the process id token. -/
theorem caller_token_unresolved_or_long {α : Type} (l : Log) (rt : Host α) (level : String)
    (now : Time)
    (hdt : and64 l.flag FlgDate ≠ 0 ∨ and64 l.flag FlgTime ≠ 0)
    (hfile : and64 l.flag FlgLongFile ≠ 0 ∨ and64 l.flag FlgShortFile ≠ 0) :
    l.buildHeader rt "" level now =
        "[" ++ level ++ "] "
          ++ (if and64 l.flag FlgDate ≠ 0 then
                dateToken (if and64 l.flag FlgUTC ≠ 0 then now.UTC else now) else "")
          ++ (if and64 l.flag FlgTime ≠ 0 then
                timeToken l.flag (if and64 l.flag FlgUTC ≠ 0 then now.UTC else now) else "")
          ++ callerToken l.flag rt.Caller
          ++ (if and64 l.flag FlgPID ≠ 0 then pidToken rt.Getpid else "")
      ∧ (rt.Caller.ok = false → callerToken l.flag rt.Caller = "???:0 ")
      ∧ (rt.Caller.ok = true → and64 l.flag FlgLongFile ≠ 0 →
          ¬(and64 l.flag FlgLongFile ≠ 0 ∧ and64 l.flag FlgShortFile ≠ 0) →
          callerToken l.flag rt.Caller
            = rt.Caller.file ++ ":" ++ verbD rt.Caller.line ++ " ") := by
  have hg : and64 l.flag (or64 FlgDate FlgTime) ≠ 0 := (and64_or64_ne_zero _ _ _).mpr hdt
  have hc : and64 l.flag (or64 FlgShortFile FlgLongFile) ≠ 0 :=
    (and64_or64_ne_zero _ _ _).mpr (Or.symm hfile)
  refine ⟨?_, ?_, ?_⟩
  · rw [buildHeader_eq, if_pos hg, if_pos hc]
    apply String.ext
    simp [String.data_append]
  · intro hok
    unfold callerToken callerFile
    rw [hok]
    simp only [Bool.not_false, reduceIte]
    by_cases hs : and64 l.flag FlgShortFile ≠ 0
    · rw [if_pos hs]
      decide
    · rw [if_neg hs]
      decide
  · intro hok hlong hacc
    have hs : ¬ and64 l.flag FlgShortFile ≠ 0 := fun hs => hacc ⟨hlong, hs⟩
    unfold callerToken callerFile
    simp [hok, hs]

/-- C19 at an unresolved frame under `FlgShortFile` and under `FlgLongFile`,
and at the frame `/path/to/src/file.go:23` under `FlgLongFile`. -/
theorem caller_token_unresolved_or_long_witness :
    callerToken shortFileLogger.flag lostHost.Caller = "???:0 "
      ∧ callerToken longFileLogger.flag lostHost.Caller = "???:0 "
      ∧ longFileLogger.buildHeader lostHost "" "INFO" epoch = "[INFO] 1970-01-01 ???:0 "
      ∧ callerToken longFileLogger.flag demoHost.Caller = "/path/to/src/file.go:23 " :=
  ⟨(caller_token_unresolved_or_long shortFileLogger lostHost "INFO" epoch
      (by decide) (by decide)).2.1 (by decide),
   (caller_token_unresolved_or_long longFileLogger lostHost "INFO" epoch
      (by decide) (by decide)).2.1 (by decide),
   (caller_token_unresolved_or_long longFileLogger lostHost "INFO" epoch
      (by decide) (by decide)).1.trans (by decide),
   ((caller_token_unresolved_or_long longFileLogger demoHost "INFO" epoch
      (by decide) (by decide)).2.2 (by decide) (by decide) (by decide)).trans (by decide)⟩


end Yagl
